import Mathlib

/-!
Verification of the parameter reconciliation and run-result assembly pipeline
of the Covasim web application (`covasim/webapp/cova_app.py`).

The embedding is shallow: Python dicts become association lists over `String`
keys, JSON-ish values become the inductive `JVal`, machine floats become `ℚ`
(the operations used by the code — comparisons, median of three, rounding —
are exact on rationals), and Python exceptions become `Except String`.
An `Except.error` escaping a function models an uncaught Python exception.
-/

namespace CovaApp

/-- A loosely typed value as it arrives from the JSON transport layer:
a number, a string, a boolean, or null. -/
inductive JVal where
  | num (q : ℚ)
  | str (s : String)
  | bool (b : Bool)
  | null
  deriving DecidableEq, Repr

/-- Python truthiness for the values the app manipulates:
`0` and `0.0` are falsy, the empty string is falsy, `None` is falsy. -/
def truthy : JVal → Bool
  | JVal.num q => if q = 0 then false else true
  | JVal.str s => if s = "" then false else true
  | JVal.bool b => b
  | JVal.null => false

/-- Numeric value of a decimal digit character, when it is one. -/
def digitVal? (c : Char) : Option Nat :=
  if 48 ≤ c.toNat ∧ c.toNat ≤ 57 then some (c.toNat - 48) else Option.none

/-- Accumulate decimal digits left to right; fail on any non-digit. -/
def parseDigitsAux : List Char → Nat → Option Nat
  | [], acc => some acc
  | c :: rest, acc =>
    match digitVal? c with
    | some dv => parseDigitsAux rest (acc * 10 + dv)
    | Option.none => Option.none

/-- Parse an optionally negated decimal integer literal, the numeric
string shape the claims exercise; any other string fails, as the Python
conversions would. -/
def parseIntLit (s : String) : Option ℤ :=
  match s.data with
  | [] => Option.none
  | '-' :: c :: rest => (parseDigitsAux (c :: rest) 0).map fun n => -(n : ℤ)
  | c :: rest => (parseDigitsAux (c :: rest) 0).map fun n => (n : ℤ)

/-- Python `float(x)` on the values reachable in this program, modelled
exactly for numbers and booleans, and for strings restricted to integer
literals (the only string shapes the claims exercise).  `None` fails. -/
def pyFloat : JVal → Option ℚ
  | JVal.num q => some q
  | JVal.str s => (parseIntLit s).map fun n => (n : ℚ)
  | JVal.bool b => some (if b then 1 else 0)
  | JVal.null => Option.none

/-- Truncation toward zero, as Python `int()` does on a float. -/
def ratTrunc (q : ℚ) : ℤ :=
  if q < 0 then -((-q).floor) else q.floor

/-- Python `int(x)` on the values reachable in this program. -/
def pyInt : JVal → Except String ℤ
  | JVal.num q => Except.ok (ratTrunc q)
  | JVal.str s =>
    match parseIntLit s with
    | some n => Except.ok n
    | Option.none => Except.error "ValueError: invalid literal for int"
  | JVal.bool b => Except.ok (if b then 1 else 0)
  | JVal.null => Except.error "TypeError: int argument must be a number"

/-- Python `round(x)` (banker's rounding: ties go to the even integer).
The fractional part `q - floor q` is compared with one half through the
equivalent integer comparison `2 * num q` versus `(2 * floor q + 1) * den q`,
which the kernel can evaluate. -/
def pyRound (q : ℚ) : ℤ :=
  let f := q.floor
  let twiceNum := 2 * q.num
  let halfPoint := (2 * f + 1) * (q.den : ℤ)
  if twiceNum < halfPoint then f
  else if halfPoint < twiceNum then f + 1
  else if f % 2 = 0 then f else f + 1

/-- `pl.median` applied to a list of exactly three numbers: the middle
order statistic, written with `min`/`max`. -/
def median3 (a b c : ℚ) : ℚ :=
  max (min a b) (min (max a b) c)

/-- First-match lookup in an association list, the reading discipline of a
Python dict whose keys are unique. -/
def lookup (k : String) : List (String × α) → Option α
  | [] => Option.none
  | p :: rest => if p.1 = k then some p.2 else lookup k rest

/-- Python dict item assignment `d[k] = v`: update in place when the key is
present, append otherwise. -/
def dictInsert (d : List (String × α)) (k : String) (v : α) : List (String × α) :=
  match lookup k d with
  | some _ => d.map fun p => if p.1 = k then (p.1, v) else p
  | Option.none => d ++ [(k, v)]

/-- Python `{**a, **b}`: items of `a` in order, then items of `b`, with `b`
overriding `a` on shared keys. -/
def dictMerge (a b : List (String × α)) : List (String × α) :=
  b.foldl (fun d p => dictInsert d p.1 p.2) a

/-- One entry of the parameter catalog (`cova_app.py`, `get_defaults`). -/
structure ParamSpec where
  best : ℚ
  min : ℚ
  max : ℚ
  name : String
  tip : String
  deriving DecidableEq, Repr

/-- The structural/simulation parameter group of `get_defaults`
(`max_pop = 10e3`, `max_days = 90` inlined). -/
def sim_pars0 : List (String × ParamSpec) :=
  [("scale", { best := 1, min := 1, max := 1000000,
               name := "Population scale factor",
               tip := "Multiplier for results (to approximate large populations)" }),
   ("n", { best := 5000, min := 1, max := 10000,
           name := "Population size",
           tip := "Number of agents simulated in the model" }),
   ("n_infected", { best := 10, min := 1, max := 10000,
                    name := "Initial infections",
                    tip := "Number of initial seed infections in the model" }),
   ("n_days", { best := 90, min := 1, max := 90,
                name := "Number of days to simulate",
                tip := "Number of days to run the simulation for" }),
   ("interv_days", { best := 20, min := 0, max := 90,
                     name := "Intervention start day",
                     tip := "Start day of the intervention (can be blank)" }),
   ("interv_effs", { best := mkRat 9 10, min := 0, max := 1,
                     name := "Intervention effectiveness",
                     tip := "Change in infection rate due to intervention" }),
   ("seed", { best := 1, min := 1, max := 100,
              name := "Random seed",
              tip := "Random number seed (leave blank for random results)" })]

/-- The epidemiological parameter group of `get_defaults`.  Decimal
literals of the source are written through `mkRat` (so `0.015` is
`mkRat 15 1000`), because the rational `OfScientific` literal notation
does not evaluate inside the kernel. -/
def epi_pars0 : List (String × ParamSpec) :=
  [("beta", { best := mkRat 15 1000, min := 0, max := mkRat 2 10,
              name := "Beta (infectiousness)",
              tip := "Probability of infection per contact per day" }),
   ("contacts", { best := 20, min := 0, max := 50,
                  name := "Number of contacts",
                  tip := "Average number of people each person is in contact with each day" }),
   ("serial", { best := 4, min := 1, max := 30,
                name := "Serial interval (days)",
                tip := "Average number of days between exposure and being infectious" }),
   ("incub", { best := 5, min := 1, max := 30,
               name := "Incubation period (days)",
               tip := "Average number of days between exposure and developing symptoms" }),
   ("dur", { best := 8, min := 1, max := 30,
             name := "Infection duration (days)",
             tip := "Average number of days between infection and recovery (viral shedding period)" }),
   ("timetodie", { best := 22, min := 1, max := 60,
                   name := "Time until death (days)",
                   tip := "Average number of days between infection and death" }),
   ("default_cfr", { best := mkRat 2 100, min := 0, max := 1,
                     name := "Case fatality rate",
                     tip := "Proportion of people who become infected who die" })]

/-- The region override table of `get_defaults`: parameter key to
(region name to `best` value).  The Wuhan rows are commented out in the
source and therefore absent here. -/
def regions : List (String × List (String × ℚ)) :=
  [("scale", [("Example", 1), ("Seattle", 25)]),
   ("n", [("Example", 2000), ("Seattle", 10000)]),
   ("n_days", [("Example", 60), ("Seattle", 45)]),
   ("n_infected", [("Example", 10), ("Seattle", 4)]),
   ("interv_days", [("Example", 20), ("Seattle", 20)]),
   ("interv_effs", [("Example", mkRat 5 10), ("Seattle", 0)])]

/-- `sim_pars[parkey].best = v`, an in-place field update. -/
def setBest (sp : List (String × ParamSpec)) (parkey : String) (v : ℚ) :
    List (String × ParamSpec) :=
  sp.map fun p => if p.1 = parkey then (p.1, { p.2 with best := v }) else p

/-- The loop `for parkey, valuedict in regions.items():
sim_pars[parkey].best = valuedict[region]`.  A region name absent from a
`valuedict` raises `KeyError`, modelled as `Except.error`. -/
def applyRegions (reg : String) :
    List (String × List (String × ℚ)) → List (String × ParamSpec) →
    Except String (List (String × ParamSpec))
  | [], sp => Except.ok sp
  | (parkey, vd) :: rest, sp =>
    match lookup reg vd with
    | some v => applyRegions reg rest (setBest sp parkey v)
    | Option.none => Except.error ("KeyError: " ++ reg)

/-- The two possible result shapes of `get_defaults`, selected by `merge`. -/
inductive DefaultsOutput where
  | merged (cat : List (String × ParamSpec))
  | split (sim epi : List (String × ParamSpec))
  deriving DecidableEq, Repr

/-- `get_defaults(region, merge)` from `cova_app.py`: `region=None` falls
back to the string `Example`; the region overrides are applied to the
simulation group; `merge` flattens the two groups into one dict. -/
def get_defaults (region : Option String) (merge : Bool) :
    Except String DefaultsOutput :=
  let reg := region.getD "Example"
  match applyRegions reg regions sim_pars0 with
  | Except.error e => Except.error e
  | Except.ok sp =>
    Except.ok (if merge then DefaultsOutput.merged (dictMerge sp epi_pars0)
               else DefaultsOutput.split sp epi_pars0)

/-- The merged default catalog that `run_sim` obtains from
`get_defaults(merge=True)` (with the implicit `region=None`). -/
def defaultsMerged : List (String × ParamSpec) :=
  match applyRegions "Example" regions sim_pars0 with
  | Except.ok sp => dictMerge sp epi_pars0
  | Except.error _ => []

/-- The catalog used inside `run_sim` is exactly the merged output of
`get_defaults` on the default region. -/
theorem get_defaults_none_merged :
    get_defaults Option.none true = Except.ok (DefaultsOutput.merged defaultsMerged) := rfl

/-- One iteration of the reconciliation loop in `run_sim` for key `k` with
override value `b` (the entry field `best`):
read `min`/`max` from the merged catalog (`KeyError` when absent), then
either median-of-three the float conversion of a truthy `best`, or assign
null for a falsy `best`. -/
def reconcileKey (d : List (String × ParamSpec)) (k : String) (b : JVal) :
    Except String JVal :=
  match lookup k d with
  | Option.none => Except.error ("KeyError: " ++ k)
  | some s =>
    if truthy b then
      match pyFloat b with
      | some v => Except.ok (JVal.num (median3 v s.min s.max))
      | Option.none => Except.error "ValueError: could not convert value to float"
    else Except.ok JVal.null

/-- The reconciliation loop of `run_sim` over the merged override items.
The `try` block of the source wraps the whole loop, so the first failing
key aborts the iteration; the exception text is folded into the error
string with the prefix used at line 138 of the source. -/
def runReconcile (d : List (String × ParamSpec)) :
    List (String × JVal) → List (String × JVal) × String
  | [] => ([], "")
  | p :: rest =>
    match reconcileKey d p.1 p.2 with
    | Except.ok v =>
      let r := runReconcile d rest
      ((p.1, v) :: r.1, r.2)
    | Except.error m => ([], "Parameter conversion failed! " ++ m)

/-- The in-loop write-back `sim_pars[key].best = pars[key]` (or the same on
`epi_pars`), restricted to the keys that were actually processed: an entry
whose key never made it into `pars` keeps its original `best`. -/
def writeBackItems (items : List (String × JVal)) (pars : List (String × JVal)) :
    List (String × JVal) :=
  items.map fun p =>
    match lookup p.1 pars with
    | some v => (p.1, v)
    | Option.none => p

/-- Write-back on the epidemiological group: a key also present in the
simulation group is written there instead (`if key in sim_pars` branch). -/
def writeBackEpi (sim epi : List (String × JVal)) (pars : List (String × JVal)) :
    List (String × JVal) :=
  epi.map fun p =>
    match lookup p.1 sim with
    | some _ => p
    | Option.none =>
      match lookup p.1 pars with
      | some v => (p.1, v)
      | Option.none => p

/-- The outcome of the guarded reconciliation block of `run_sim`
(source lines 122 to 141). -/
structure RecOut where
  pars : List (String × JVal)
  sim : List (String × JVal)
  epi : List (String × JVal)
  err : String
  deriving DecidableEq, Repr

/-- The whole `try` block of `run_sim`: merge the two override groups,
reconcile key by key against the merged default catalog, and rewrite the
override groups in place with the reconciled values. -/
def reconcileBlock (sim epi : List (String × JVal)) : RecOut :=
  let items := dictMerge sim epi
  let r := runReconcile defaultsMerged items
  { pars := r.1
    sim := writeBackItems sim r.1
    epi := writeBackEpi sim epi r.1
    err := r.2 }

/-- The engine result table: named series plus the point count `npts`.
Modelled from the spec: the engine (`cv.Sim`) is an external collaborator
not under `src/`; section 6 of the spec describes its results as named
series addressable by slice together with a point-count property. -/
structure EngineOutput where
  results : List (String × List ℚ)
  npts : Nat
  deriving DecidableEq, Repr

/-- Modelled from the spec: the engine run operation.  Given the
configuration dict and the seed it either completes or raises, and the
simulation object afterwards holds some (possibly empty) result table. -/
def Engine : Type :=
  List (String × JVal) → Option ℤ → Except String Unit × EngineOutput

/-- The error text appended when `sim.run` raises (source line 159). -/
def engineErr : Except String Unit → String
  | Except.ok _ => ""
  | Except.error e => "Sim run failed! (" ++ e ++ ")"

/-- `pars[seed]` handling of `run_sim` (source lines 146 to 149): a missing
key raises `KeyError` outside any `try`; a null value means seed randomly
(`Option.none` here); otherwise the value goes through `int()`. -/
def getSeed (pars : List (String × JVal)) : Except String (Option ℤ) :=
  match lookup "seed" pars with
  | Option.none => Except.error "KeyError: seed"
  | some JVal.null => Except.ok Option.none
  | some v => (pyInt v).map some

/-- Series access `sim.results[key][:]`: `KeyError` when the series is
absent from the result table. -/
def getSeries (results : List (String × List ℚ)) (k : String) :
    Except String (List ℚ) :=
  match lookup k results with
  | some y => Except.ok y
  | Option.none => Except.error ("KeyError: " ++ k)

/-- `series[-1]`: the last element, `IndexError` on an empty series. -/
def lastElem (l : List ℚ) : Except String ℚ :=
  match l.getLast? with
  | some x => Except.ok x
  | Option.none => Except.error "IndexError: list index out of range"

/-- Modelled from the spec: `cv.to_plot`, the fixed externally defined
list of metric groups (plot title and ordered key/label pairs); the spec
requires at minimum the cumulative infection and cumulative death series
and a day index. -/
def to_plot : List (String × List (String × String)) :=
  [("Total counts",
    [("cum_exposed", "Cumulative infections"),
     ("cum_deaths", "Cumulative deaths")])]

/-- One assembled figure: the title and, per trace, the label with the
x (day index) and y series.  Figure serialization, colors and the fresh
uuid tag carry no information the claims touch and are not modelled. -/
structure GraphPayload where
  title : String
  series : List (String × List ℚ × List ℚ)
  deriving DecidableEq, Repr

/-- The traces of one figure: for each key/label pair read the y series
and then the day-index series `t`, as the source does per trace. -/
def buildTraces (results : List (String × List ℚ)) :
    List (String × String) → Except String (List (String × List ℚ × List ℚ))
  | [] => Except.ok []
  | (key, label) :: rest =>
    match getSeries results key with
    | Except.error e => Except.error e
    | Except.ok y =>
      match getSeries results "t" with
      | Except.error e => Except.error e
      | Except.ok x =>
        match buildTraces results rest with
        | Except.error e => Except.error e
        | Except.ok ts => Except.ok ((label, x, y) :: ts)

/-- The plotting loop of `run_sim` over the metric groups. -/
def buildGraphsAux (results : List (String × List ℚ)) :
    List (String × List (String × String)) → Except String (List GraphPayload)
  | [] => Except.ok []
  | (title, kls) :: rest =>
    match buildTraces results kls with
    | Except.error e => Except.error e
    | Except.ok ts =>
      match buildGraphsAux results rest with
      | Except.error e => Except.error e
      | Except.ok gs => Except.ok ({ title := title, series := ts } :: gs)

/-- All figures assembled from the engine result table. -/
def buildGraphs (results : List (String × List ℚ)) :
    Except String (List GraphPayload) :=
  buildGraphsAux results to_plot

/-- The summary block of `run_sim` (source lines 197 to 202). -/
structure Summary where
  days : ℤ
  cases : ℤ
  deaths : ℤ
  deriving DecidableEq, Repr

/-- `output[summary]`: `days = npts - 1`, `cases` and `deaths` are the
rounded last elements of the cumulative series; any missing series or
empty series raises. -/
def buildSummary (out : EngineOutput) : Except String Summary :=
  match getSeries out.results "cum_exposed" with
  | Except.error e => Except.error e
  | Except.ok ce =>
    match lastElem ce with
    | Except.error e => Except.error e
    | Except.ok cl =>
      match getSeries out.results "cum_deaths" with
      | Except.error e => Except.error e
      | Except.ok cd =>
        match lastElem cd with
        | Except.error e => Except.error e
        | Except.ok dl =>
          Except.ok { days := (out.npts : ℤ) - 1
                      cases := pyRound cl
                      deaths := pyRound dl }

/-- The structured response of `run_sim`.  The exported file blobs
(timestamped filenames, base64 data URIs) depend on wall-clock time and
byte-level serialization and are outside the embedding; no claim
mentions them. -/
structure RunResult where
  err : String
  sim_pars : List (String × JVal)
  epi_pars : List (String × JVal)
  graphs : List GraphPayload
  summary : Summary
  deriving DecidableEq, Repr

/-- `run_sim(sim_pars, epi_pars, verbose)` from `cova_app.py`, parameterized
by the external engine.  The reconciliation block is exception-guarded; the
seed access, the plotting loop and the summary block are not, so an error
there escapes as `Except.error` (an uncaught Python exception).  The
engine run is exception-guarded and its failure only extends `err`. -/
def run_sim (engine : Engine) (sim_pars epi_pars : List (String × JVal))
    (verbose : Bool) : Except String RunResult :=
  let R := reconcileBlock sim_pars epi_pars
  let pars := dictMerge [("verbose", JVal.bool verbose)] R.pars
  match getSeed pars with
  | Except.error e => Except.error e
  | Except.ok seed =>
    let eo := engine pars seed
    let err := R.err ++ engineErr eo.1
    match buildGraphs eo.2.results with
    | Except.error e => Except.error e
    | Except.ok graphs =>
      match buildSummary eo.2 with
      | Except.error e => Except.error e
      | Except.ok summary =>
        Except.ok { err := err
                    sim_pars := R.sim
                    epi_pars := R.epi
                    graphs := graphs
                    summary := summary }

/-- The shape of an uploaded document as far as `upload_pars` inspects it:
a dict (with its top-level keys) or some other object (with the name of
its type, used in the error message). -/
inductive UploadDoc where
  | dict (keys : List String)
  | other (typename : String)
  deriving DecidableEq, Repr

/-- `upload_pars` from `cova_app.py`: reject non-dict documents, reject
dicts missing either group key, return the document otherwise. -/
def upload_pars (d : UploadDoc) : Except String (List String) :=
  match d with
  | UploadDoc.other t =>
    Except.error ("Uploaded file was a " ++ t ++ " object rather than a dict")
  | UploadDoc.dict keys =>
    if "sim_pars" ∉ keys ∨ "epi_pars" ∉ keys then
      Except.error "Parameters file must have keys sim_pars and epi_pars"
    else Except.ok keys

/-- Boolean success test for an `Except` value. -/
def isOkE : Except String α → Bool
  | Except.ok _ => true
  | Except.error _ => false

instance exceptDecEq [DecidableEq ε] [DecidableEq α] : DecidableEq (Except ε α) :=
  fun x y =>
    match x, y with
    | Except.ok a, Except.ok b =>
      if h : a = b then isTrue (by rw [h]) else isFalse (fun he => h (by injection he))
    | Except.error a, Except.error b =>
      if h : a = b then isTrue (by rw [h]) else isFalse (fun he => h (by injection he))
    | Except.ok _, Except.error _ => isFalse (fun he => Except.noConfusion he)
    | Except.error _, Except.ok _ => isFalse (fun he => Except.noConfusion he)

/-- Boolean form of the catalog invariant `min ≤ best ≤ max`. -/
def catalogOK (cat : List (String × ParamSpec)) : Bool :=
  cat.all fun p => decide (p.2.min ≤ p.2.best) && decide (p.2.best ≤ p.2.max)

/-- The catalog invariant on either result shape of `get_defaults`. -/
def defaultsOutputOK : DefaultsOutput → Bool
  | DefaultsOutput.merged c => catalogOK c
  | DefaultsOutput.split s e => catalogOK s && catalogOK e

section HelperLemmas

/-- A string of nonzero length is not the empty string. -/
theorem ne_empty_of_length_ne_zero (s : String) (h : s.length ≠ 0) : s ≠ "" :=
  fun he => h (by rw [he]; rfl)

/-- Appending a nonempty string on the right never yields the empty string. -/
theorem append_right_ne_empty (a b : String) (h : b.length ≠ 0) : (a ++ b) ≠ "" := by
  apply ne_empty_of_length_ne_zero
  rw [String.length_append]
  omega

/-- The error text produced by the reconciliation guard is never empty. -/
theorem reconcile_err_ne_empty (m : String) :
    ("Parameter conversion failed! " ++ m) ≠ "" := by
  apply ne_empty_of_length_ne_zero
  rw [String.length_append]
  intro h
  have h2 : ("Parameter conversion failed! " : String).length = 29 := rfl
  omega

/-- The error text recorded when the engine run raises is never empty. -/
theorem engineErr_error_ne_empty (e : String) :
    engineErr (Except.error e) ≠ "" := by
  apply ne_empty_of_length_ne_zero
  show ("Sim run failed! (" ++ e ++ ")").length ≠ 0
  rw [String.length_append, String.length_append]
  intro h
  have h2 : ("Sim run failed! (" : String).length = 17 := rfl
  omega

/-- Length of the engine failure text in terms of the message length. -/
theorem engineErr_error_length (e : String) :
    (engineErr (Except.error e)).length = 18 + e.length := by
  show ("Sim run failed! (" ++ e ++ ")").length = 18 + e.length
  rw [String.length_append, String.length_append]
  have h17 : ("Sim run failed! (" : String).length = 17 := rfl
  have h1 : (")" : String).length = 1 := rfl
  omega

/-- The days field of a successfully assembled summary is the point count
minus one. -/
theorem buildSummary_days (out : EngineOutput) (sm : Summary)
    (h : buildSummary out = Except.ok sm) : sm.days = (out.npts : ℤ) - 1 := by
  unfold buildSummary at h
  split at h
  · simp at h
  · split at h
    · simp at h
    · split at h
      · simp at h
      · split at h
        · simp at h
        · injection h with h2
          rw [← h2]

/-- The median of three is the clamp of its first argument to the interval
spanned by the other two (stated for an ordered pair of bounds). -/
theorem median3_clamp (a b c : ℚ) (hbc : b ≤ c) :
    median3 a b c = if a < b then b else if c < a then c else a := by
  simp only [median3, min_def, max_def]
  split_ifs <;> first | rfl | linarith

/-- Re-medianing a median against the same bounds changes nothing. -/
theorem median3_idem (a b c : ℚ) :
    median3 (median3 a b c) b c = median3 a b c := by
  simp only [median3, min_def, max_def]
  split_ifs <;> first | rfl | linarith

/-- `lastElem` on a nonempty list returns its last element. -/
theorem lastElem_ne_nil (l : List ℚ) (h : l ≠ []) :
    lastElem l = Except.ok (l.getLast h) := by
  simp [lastElem, List.getLast?_eq_getLast l h]

/-- Reconciling an already reconciled value is stable, provided the
reconciled value is not the (falsy) number zero. -/
theorem reconcileKey_idem (d : List (String × ParamSpec)) (k : String) (b v : JVal)
    (h : reconcileKey d k b = Except.ok v) (h0 : v ≠ JVal.num 0) :
    reconcileKey d k v = Except.ok v := by
  unfold reconcileKey at h
  split at h
  · exact absurd h (by simp)
  · rename_i s hl
    split at h
    · split at h
      · rename_i w hf
        injection h with h2
        subst h2
        have hq : median3 w s.min s.max ≠ 0 := fun hz => h0 (by rw [hz])
        simp [reconcileKey, hl, truthy, hq, pyFloat, median3_idem]
      · exact absurd h (by simp)
    · injection h with h2
      subst h2
      simp [reconcileKey, hl, truthy]

/-- A fresh head entry whose key occurs nowhere in `rest` does not change
the write-back of `rest`. -/
theorem writeBackItems_cons_skip (rest : List (String × JVal)) (a : String) (v : JVal)
    (ps : List (String × JVal)) (h : ∀ q ∈ rest, q.1 ≠ a) :
    writeBackItems rest ((a, v) :: ps) = writeBackItems rest ps := by
  unfold writeBackItems
  apply List.map_congr_left
  intro q hq
  have hne : ¬(a = q.1) := fun he => h q hq he.symm
  simp [lookup, hne]

/-- Idempotence of the reconciliation loop over any catalog: a fully
successful pass whose values are all null or nonzero reproduces itself
when run on the written-back items. -/
theorem runReconcile_idem_aux (d : List (String × ParamSpec))
    (items : List (String × JVal))
    (hnd : (items.map Prod.fst).Nodup)
    (hok : (runReconcile d items).2 = "")
    (h0 : ∀ p ∈ (runReconcile d items).1, p.2 ≠ JVal.num 0) :
    runReconcile d (writeBackItems items (runReconcile d items).1)
      = runReconcile d items := by
  induction items with
  | nil => rfl
  | cons p rest ih =>
    cases hq : reconcileKey d p.1 p.2 with
    | error m =>
      have hbad : (runReconcile d (p :: rest)).2 = "Parameter conversion failed! " ++ m := by
        simp [runReconcile, hq]
      rw [hbad] at hok
      exact absurd hok (reconcile_err_ne_empty m)
    | ok v =>
      have hrec : runReconcile d (p :: rest) =
          ((p.1, v) :: (runReconcile d rest).1, (runReconcile d rest).2) := by
        simp [runReconcile, hq]
      rw [List.map_cons, List.nodup_cons] at hnd
      have hnotin : ∀ q ∈ rest, q.1 ≠ p.1 := by
        intro q hqin heq
        exact hnd.1 (heq ▸ List.mem_map_of_mem Prod.fst hqin)
      have hok2 : (runReconcile d rest).2 = "" := by rw [hrec] at hok; exact hok
      have h02 : ∀ q ∈ (runReconcile d rest).1, q.2 ≠ JVal.num 0 := by
        intro q hqin
        apply h0
        rw [hrec]
        exact List.mem_cons_of_mem _ hqin
      have hv0 : v ≠ JVal.num 0 := by
        apply h0 (p.1, v)
        rw [hrec]
        exact List.mem_cons_self _ _
      rw [hrec]
      have hwb : writeBackItems (p :: rest) ((p.1, v) :: (runReconcile d rest).1)
          = (p.1, v) :: writeBackItems rest (runReconcile d rest).1 := by
        unfold writeBackItems
        rw [List.map_cons]
        have hhead : lookup p.1 ((p.1, v) :: (runReconcile d rest).1) = some v := by
          simp [lookup]
        congr 1
        · rw [hhead]
        · exact writeBackItems_cons_skip rest p.1 v (runReconcile d rest).1 hnotin
      rw [hwb]
      have hk2 : reconcileKey d p.1 v = Except.ok v :=
        reconcileKey_idem d p.1 p.2 v hq hv0
      simp [runReconcile, hk2, ih hnd.2 hok2 h02]

/-- When seed extraction, figure assembly and summary assembly all succeed,
`run_sim` returns the structured result assembled from them, with the
error field concatenating the reconciliation and the engine error text. -/
theorem run_sim_ok_of (res : Except String Unit) (out : EngineOutput)
    (sim epi : List (String × JVal)) (v : Bool) (s : Option ℤ)
    (gs : List GraphPayload) (sm : Summary)
    (h1 : getSeed (dictMerge [("verbose", JVal.bool v)] (reconcileBlock sim epi).pars)
      = Except.ok s)
    (h2 : buildGraphs out.results = Except.ok gs)
    (h3 : buildSummary out = Except.ok sm) :
    run_sim (fun _ _ => (res, out)) sim epi v = Except.ok
      { err := (reconcileBlock sim epi).err ++ engineErr res
        sim_pars := (reconcileBlock sim epi).sim
        epi_pars := (reconcileBlock sim epi).epi
        graphs := gs
        summary := sm } := by
  simp only [run_sim, h1, h2, h3]

/-- Whenever `run_sim` returns a structured result, its summary is exactly
the assembled summary of the engine output and its error field is the
concatenation of the reconciliation and engine error texts. -/
theorem run_sim_ok_summary (res : Except String Unit) (out : EngineOutput)
    (sim epi : List (String × JVal)) (v : Bool) (r : RunResult)
    (h : run_sim (fun _ _ => (res, out)) sim epi v = Except.ok r) :
    buildSummary out = Except.ok r.summary ∧
    r.err = (reconcileBlock sim epi).err ++ engineErr res := by
  simp only [run_sim] at h
  split at h
  · simp at h
  · split at h
    · simp at h
    · split at h
      · simp at h
      · rename_i sm hsm
        injection h with h2
        subst h2
        exact ⟨hsm, rfl⟩

/-- The summary assembled from an output table holding nonempty cumulative
series is built from the point count and the rounded last elements. -/
theorem buildSummary_spec (out : EngineOutput) (ce cd : List ℚ)
    (hce : lookup "cum_exposed" out.results = some ce)
    (hcd : lookup "cum_deaths" out.results = some cd)
    (hne : ce ≠ []) (hnd : cd ≠ []) :
    buildSummary out = Except.ok
      { days := (out.npts : ℤ) - 1
        cases := pyRound (ce.getLast hne)
        deaths := pyRound (cd.getLast hnd) } := by
  have h1 : getSeries out.results "cum_exposed" = Except.ok ce := by
    simp [getSeries, hce]
  have h2 : getSeries out.results "cum_deaths" = Except.ok cd := by
    simp [getSeries, hcd]
  simp [buildSummary, h1, h2, lastElem_ne_nil ce hne, lastElem_ne_nil cd hnd]

end HelperLemmas

/-! ### Concrete inputs used by witnesses and counterexamples -/

/-- A well-formed engine output: two days of data with the plotted and
summary series present and nonempty. -/
def wOut : EngineOutput :=
  { results := [("t", [0, 1]), ("cum_exposed", [0, 5]), ("cum_deaths", [0, 1])]
    npts := 2 }

/-- A degenerate engine output: an empty result table, the shape the spec
allows after a failed engine run. -/
def emptyOut : EngineOutput := { results := [], npts := 0 }

/-- The structured result `run_sim` assembles on `wOut` for the override
set containing only `seed = 1`. -/
def wR : RunResult :=
  { err := ""
    sim_pars := [("seed", JVal.num 1)]
    epi_pars := []
    graphs := [{ title := "Total counts"
                 series := [("Cumulative infections", [0, 1], [0, 5]),
                            ("Cumulative deaths", [0, 1], [0, 1])] }]
    summary := { days := 1, cases := 5, deaths := 1 } }

/-! ### Claim C1 -/

/-- Claim C1: a catalog key whose override `best` is truthy (and converts
to a number `v`) is reconciled by `run_sim` to the median of `v`, the
catalog `min` and the catalog `max`; for ordered bounds this median is
exactly the clamp: `v` inside the interval, the nearer bound outside. -/
theorem reconcile_median_is_clamp (k : String) (b : JVal) (s : ParamSpec) (v : ℚ)
    (hs : lookup k defaultsMerged = some s)
    (ht : truthy b = true)
    (hv : pyFloat b = some v) :
    reconcileKey defaultsMerged k b = Except.ok (JVal.num (median3 v s.min s.max)) ∧
    (s.min ≤ s.max →
      median3 v s.min s.max =
        if v < s.min then s.min else if s.max < v then s.max else v) := by
  constructor
  · simp [reconcileKey, hs, ht, hv]
  · intro hle
    exact median3_clamp v s.min s.max hle

/-- Witness for C1: the population size override 20000 exceeds the catalog
maximum 10000 and is clamped to it. -/
theorem reconcile_median_is_clamp_witness :
    reconcileKey defaultsMerged "n" (JVal.num 20000)
      = Except.ok (JVal.num (median3 20000 1 10000)) ∧
    ((1 : ℚ) ≤ 10000 →
      median3 20000 1 10000 =
        if (20000 : ℚ) < 1 then 1 else if (10000 : ℚ) < 20000 then 10000 else 20000) :=
  reconcile_median_is_clamp "n" (JVal.num 20000)
    { best := 2000, min := 1, max := 10000, name := "Population size",
      tip := "Number of agents simulated in the model" } 20000
    (by decide) (by decide) (by decide)

/-! ### Claim C2 -/

/-- Claim C2 counterexample: with the override items `bogus` (unknown key)
followed by `n` (a perfectly reconcilable key), the reconciliation of
`run_sim` returns an empty reconciled set: the failure of `bogus` aborts
the loop and `n` is never reconciled, contradicting the claim that every
other key is still processed.  The second conjunct shows the key `n`
would have reconciled on its own. -/
theorem reconcile_no_short_circuit_cex :
    runReconcile defaultsMerged [("bogus", JVal.num 5), ("n", JVal.num 3000)]
      = ([], "Parameter conversion failed! KeyError: bogus") ∧
    reconcileKey defaultsMerged "n" (JVal.num 3000) = Except.ok (JVal.num 3000) := by
  exact ⟨by decide, by decide⟩

/-- Claim C2 (amended): when the catalog lookup of one key fails, the keys
before it keep their reconciled values, the failure is recorded in the
accumulated error string, and the keys after it are not processed (the
`try` block wraps the whole loop, so processing aborts at the failure
rather than continuing). -/
theorem runReconcile_prefix_abort (d : List (String × ParamSpec))
    (pre : List (String × JVal)) (k : String) (b : JVal)
    (post : List (String × JVal)) (m : String)
    (hpre : ∀ p ∈ pre, isOkE (reconcileKey d p.1 p.2) = true)
    (hk : reconcileKey d k b = Except.error m) :
    ∃ ps, runReconcile d (pre ++ (k, b) :: post)
        = (ps, "Parameter conversion failed! " ++ m) ∧
      ps.map Prod.fst = pre.map Prod.fst := by
  induction pre with
  | nil =>
    refine ⟨[], ?_, rfl⟩
    simp [runReconcile, hk]
  | cons p t ih =>
    have hp := hpre p (List.mem_cons_self p t)
    cases hq : reconcileKey d p.1 p.2 with
    | error e => rw [hq] at hp; exact absurd hp (by simp [isOkE])
    | ok v =>
      obtain ⟨ps, hps, hkeys⟩ := ih fun q hq2 => hpre q (List.mem_cons_of_mem p hq2)
      refine ⟨(p.1, v) :: ps, ?_, ?_⟩
      · simp [runReconcile, hq, hps]
      · simp [hkeys]

/-- Witness for C2 (amended): `n` before the failing key is reconciled,
`seed` after it is not. -/
theorem runReconcile_prefix_abort_witness :
    ∃ ps, runReconcile defaultsMerged
        ([("n", JVal.num 3000)] ++ ("bogus", JVal.num 5) :: [("seed", JVal.num 2)])
        = (ps, "Parameter conversion failed! " ++ "KeyError: bogus") ∧
      ps.map Prod.fst = [("n", JVal.num 3000)].map Prod.fst :=
  runReconcile_prefix_abort defaultsMerged [("n", JVal.num 3000)] "bogus"
    (JVal.num 5) [("seed", JVal.num 2)] "KeyError: bogus" (by decide) (by decide)

/-! ### Claim C3 -/

/-- Claim C3 counterexample: on empty override groups (so the reconciled
parameter dict has no `seed` entry) `run_sim` terminates with an uncaught
`KeyError` instead of returning a structured result, for any engine. -/
theorem run_sim_missing_seed_cex :
    run_sim (fun _ _ => (Except.ok (), emptyOut)) [] [] true
      = Except.error "KeyError: seed" := by decide

/-- Claim C3 (amended): `run_sim` returns a structured `RunResult` whose
`err` field accumulates the reconciliation and engine errors, provided the
reconciled parameters contain a usable `seed` entry and the engine result
table supports figure and summary assembly; outside those conditions (for
example a missing `seed` key) it raises instead of returning. -/
theorem run_sim_returns_structured (res : Except String Unit) (out : EngineOutput)
    (sim epi : List (String × JVal)) (v : Bool) (s : Option ℤ)
    (gs : List GraphPayload) (sm : Summary)
    (h1 : getSeed (dictMerge [("verbose", JVal.bool v)] (reconcileBlock sim epi).pars)
      = Except.ok s)
    (h2 : buildGraphs out.results = Except.ok gs)
    (h3 : buildSummary out = Except.ok sm) :
    ∃ r : RunResult, run_sim (fun _ _ => (res, out)) sim epi v = Except.ok r ∧
      r.err = (reconcileBlock sim epi).err ++ engineErr res :=
  ⟨_, run_sim_ok_of res out sim epi v s gs sm h1 h2 h3, rfl⟩

/-- Witness for C3 (amended): a fully successful run on the seed-only
override set returns a structured result with an empty error field. -/
theorem run_sim_returns_structured_witness :
    ∃ r : RunResult,
      run_sim (fun _ _ => (Except.ok (), wOut)) [("seed", JVal.num 1)] [] true
        = Except.ok r ∧
      r.err = (reconcileBlock [("seed", JVal.num 1)] []).err ++ engineErr (Except.ok ()) :=
  run_sim_returns_structured (Except.ok ()) wOut [("seed", JVal.num 1)] [] true
    (some 1)
    [{ title := "Total counts"
       series := [("Cumulative infections", [0, 1], [0, 5]),
                  ("Cumulative deaths", [0, 1], [0, 1])] }]
    { days := 1, cases := 5, deaths := 1 }
    (by decide) (by decide) (by decide)

/-! ### Claim C4 -/

/-- Claim C4 counterexample: when the engine run raises and its output
table is empty (the degenerate shape the spec allows on failure), the
assembler does not produce empty graphs and an empty summary: the series
access raises an uncaught `KeyError`, so `run_sim` fails instead of
returning a `RunResult` with non-empty `err`. -/
theorem run_sim_engine_fail_empty_cex :
    run_sim (fun _ _ => (Except.error "boom", emptyOut)) [("seed", JVal.num 1)] [] true
      = Except.error "KeyError: cum_exposed" := by decide

/-- Claim C4 (amended): if the engine run raises but its result table
still contains the plotted series and nonempty cumulative series, then
`run_sim` returns a structured result with non-empty `err` and with
`summary.days` equal to the point count minus one; with absent or empty
series the assembler propagates the failure instead. -/
theorem run_sim_engine_failure_structured (msg : String) (out : EngineOutput)
    (sim epi : List (String × JVal)) (v : Bool) (s : Option ℤ)
    (gs : List GraphPayload) (sm : Summary)
    (h1 : getSeed (dictMerge [("verbose", JVal.bool v)] (reconcileBlock sim epi).pars)
      = Except.ok s)
    (h2 : buildGraphs out.results = Except.ok gs)
    (h3 : buildSummary out = Except.ok sm) :
    ∃ r : RunResult,
      run_sim (fun _ _ => (Except.error msg, out)) sim epi v = Except.ok r ∧
      r.err ≠ "" ∧ r.summary.days = (out.npts : ℤ) - 1 := by
  refine ⟨_, run_sim_ok_of (Except.error msg) out sim epi v s gs sm h1 h2 h3, ?_, ?_⟩
  · apply append_right_ne_empty
    rw [engineErr_error_length]
    omega
  · exact buildSummary_days out sm h3

/-- Witness for C4 (amended): an engine failure with an intact result
table still yields a structured result with non-empty error text. -/
theorem run_sim_engine_failure_structured_witness :
    ∃ r : RunResult,
      run_sim (fun _ _ => (Except.error "boom", wOut)) [("seed", JVal.num 1)] [] true
        = Except.ok r ∧
      r.err ≠ "" ∧ r.summary.days = (wOut.npts : ℤ) - 1 :=
  run_sim_engine_failure_structured "boom" wOut [("seed", JVal.num 1)] [] true
    (some 1)
    [{ title := "Total counts"
       series := [("Cumulative infections", [0, 1], [0, 5]),
                  ("Cumulative deaths", [0, 1], [0, 1])] }]
    { days := 1, cases := 5, deaths := 1 }
    (by decide) (by decide) (by decide)

/-! ### Claim C5 -/

/-- Claim C5 counterexample: a region name absent from the region override
table does not fall back to the default region; `get_defaults` fails with
a `KeyError` on the very first override row. -/
theorem get_defaults_unknown_region_cex :
    get_defaults (some "Atlantis") false = Except.error "KeyError: Atlantis" := by decide

/-- Claim C5 (amended): only the absent region argument (`None`) falls
back to the designated default region `Example`; an explicit region name
outside the override table makes `get_defaults` fail with a lookup error
naming that region. -/
theorem get_defaults_region_fallback (m : Bool) (r : String)
    (h1 : r ≠ "Example") (h2 : r ≠ "Seattle") :
    get_defaults Option.none m = get_defaults (some "Example") m ∧
    get_defaults (some r) m = Except.error ("KeyError: " ++ r) := by
  refine ⟨rfl, ?_⟩
  have hb1 : ¬("Example" = r) := fun he => h1 he.symm
  have hb2 : ¬("Seattle" = r) := fun he => h2 he.symm
  simp [get_defaults, applyRegions, regions, lookup, hb1, hb2]

/-- Witness for C5 (amended), at the region name `Atlantis`. -/
theorem get_defaults_region_fallback_witness :
    get_defaults Option.none true = get_defaults (some "Example") true ∧
    get_defaults (some "Atlantis") true = Except.error ("KeyError: " ++ "Atlantis") :=
  get_defaults_region_fallback true "Atlantis" (by decide) (by decide)

/-! ### Claim C6 -/

/-- Claim C6 counterexample: the intervention effectiveness override `-5`
is clamped to the lower bound `0`; on a second pass the written-back value
`0` is falsy, so it reconciles to null instead of `0` — reconciliation is
not idempotent on this override set. -/
theorem reconcile_not_idempotent_cex :
    runReconcile defaultsMerged
        (writeBackItems [("interv_effs", JVal.num (-5))]
          (runReconcile defaultsMerged [("interv_effs", JVal.num (-5))]).1)
      ≠ runReconcile defaultsMerged [("interv_effs", JVal.num (-5))] := by decide

/-- Claim C6 (amended): reconciliation is idempotent on every override set
(with distinct keys) whose first pass fully succeeds and produces no value
equal to zero: re-running the loop on the written-back items reproduces
the same reconciled values; the exception forced by the counterexample is
a value clamped to the falsy number zero, which turns into null on the
second pass. -/
theorem runReconcile_idempotent (items : List (String × JVal))
    (hnd : (items.map Prod.fst).Nodup)
    (hok : (runReconcile defaultsMerged items).2 = "")
    (h0 : ∀ p ∈ (runReconcile defaultsMerged items).1, p.2 ≠ JVal.num 0) :
    runReconcile defaultsMerged
        (writeBackItems items (runReconcile defaultsMerged items).1)
      = runReconcile defaultsMerged items :=
  runReconcile_idem_aux defaultsMerged items hnd hok h0

/-- Witness for C6 (amended): a clamped numeric override together with a
null override reconcile identically on the second pass. -/
theorem runReconcile_idempotent_witness :
    runReconcile defaultsMerged
        (writeBackItems [("n", JVal.num 20000), ("beta", JVal.null)]
          (runReconcile defaultsMerged [("n", JVal.num 20000), ("beta", JVal.null)]).1)
      = runReconcile defaultsMerged [("n", JVal.num 20000), ("beta", JVal.null)] :=
  runReconcile_idempotent [("n", JVal.num 20000), ("beta", JVal.null)]
    (by decide) (by decide) (by decide)

/-! ### Claim C7 -/

/-- Claim C7: the catalog invariant `min ≤ best ≤ max` holds for every
key of the unmodified default catalog and for the catalog produced by
`get_defaults` for every region of the override table, in both output
shapes. -/
theorem catalog_bounds_invariant (r : String)
    (hr : r = "Example" ∨ r = "Seattle") (m : Bool) :
    catalogOK (dictMerge sim_pars0 epi_pars0) = true ∧
    ∃ out, get_defaults (some r) m = Except.ok out ∧ defaultsOutputOK out = true := by
  rcases hr with h | h <;> subst h <;> cases m <;>
    exact ⟨by decide, _, rfl, by decide⟩

/-- Witness for C7 at the region `Example` with merged output. -/
theorem catalog_bounds_invariant_witness :
    catalogOK (dictMerge sim_pars0 epi_pars0) = true ∧
    ∃ out, get_defaults (some "Example") true = Except.ok out ∧
      defaultsOutputOK out = true :=
  catalog_bounds_invariant "Example" (Or.inl rfl) true

/-! ### Claim C8 -/

/-- Claim C8: whenever `run_sim` returns a structured result, its summary
satisfies `days = npts - 1`, `cases = round` of the last element of the
cumulative infection series, and `deaths = round` of the last element of
the cumulative death series. -/
theorem run_sim_summary_fields (res : Except String Unit) (out : EngineOutput)
    (sim epi : List (String × JVal)) (v : Bool) (r : RunResult)
    (h : run_sim (fun _ _ => (res, out)) sim epi v = Except.ok r)
    (ce cd : List ℚ)
    (hce : lookup "cum_exposed" out.results = some ce)
    (hcd : lookup "cum_deaths" out.results = some cd)
    (hne : ce ≠ []) (hnd : cd ≠ []) :
    r.summary.days = (out.npts : ℤ) - 1 ∧
    r.summary.cases = pyRound (ce.getLast hne) ∧
    r.summary.deaths = pyRound (cd.getLast hnd) := by
  have hsum := (run_sim_ok_summary res out sim epi v r h).1
  rw [buildSummary_spec out ce cd hce hcd hne hnd] at hsum
  injection hsum with h2
  rw [← h2]
  exact ⟨rfl, rfl, rfl⟩

/-- Witness for C8 on the two-day engine output `wOut`. -/
theorem run_sim_summary_fields_witness :
    wR.summary.days = (wOut.npts : ℤ) - 1 ∧
    wR.summary.cases = pyRound (([0, 5] : List ℚ).getLast (by decide)) ∧
    wR.summary.deaths = pyRound (([0, 1] : List ℚ).getLast (by decide)) :=
  run_sim_summary_fields (Except.ok ()) wOut [("seed", JVal.num 1)] [] true wR
    (by decide) [0, 5] [0, 1] (by decide) (by decide) (by decide) (by decide)

/-! ### Claim C9 -/

/-- Claim C9 counterexample: a mapping with the two group keys plus an
extra top-level key is accepted by `upload_pars`, although it does not
contain exactly the two expected keys — the check demands the presence of
both keys but tolerates extras. -/
theorem upload_pars_extra_key_cex :
    upload_pars (UploadDoc.dict ["sim_pars", "epi_pars", "extra"])
      = Except.ok ["sim_pars", "epi_pars", "extra"] := by decide

/-- Claim C9 (amended): `upload_pars` succeeds exactly on mappings whose
top-level keys include both `sim_pars` and `epi_pars` (additional keys are
tolerated); every non-mapping and every mapping lacking one of the two
group keys is rejected with a validation error before reconciliation. -/
theorem upload_pars_validation (d : UploadDoc) :
    isOkE (upload_pars d) = true ↔
      ∃ keys, d = UploadDoc.dict keys ∧ "sim_pars" ∈ keys ∧ "epi_pars" ∈ keys := by
  cases d with
  | other t => simp [upload_pars, isOkE]
  | dict keys =>
    by_cases h1 : "sim_pars" ∈ keys <;> by_cases h2 : "epi_pars" ∈ keys <;>
      simp [upload_pars, isOkE, h1, h2]

/-! ### Claim C10 -/

/-- Claim C10: every reconciled value `run_sim` produces is either null or
a number obtained by converting the override `best` through the float
conversion and taking the median against the catalog bounds; in
particular the numeric string `10` is accepted as a value for the
population size, while a non-numeric string fails into the accumulated
error path of the conversion guard. -/
theorem reconciled_values_from_float (k : String) (b o : JVal)
    (h : reconcileKey defaultsMerged k b = Except.ok o) :
    (o = JVal.null ∨
      ∃ v s, pyFloat b = some v ∧ lookup k defaultsMerged = some s ∧
        o = JVal.num (median3 v s.min s.max)) ∧
    reconcileKey defaultsMerged "n" (JVal.str "10") = Except.ok (JVal.num 10) ∧
    reconcileKey defaultsMerged "n" (JVal.str "abc")
      = Except.error "ValueError: could not convert value to float" := by
  refine ⟨?_, by decide, by decide⟩
  unfold reconcileKey at h
  split at h
  · simp at h
  · rename_i s hl
    split at h
    · split at h
      · rename_i w hf
        injection h with h2
        exact Or.inr ⟨w, s, hf, hl, h2.symm⟩
      · simp at h
    · injection h with h2
      exact Or.inl h2.symm

/-- Witness for C10 at the numeric string override `10` for `n`. -/
theorem reconciled_values_from_float_witness :
    (JVal.num 10 = JVal.null ∨
      ∃ v s, pyFloat (JVal.str "10") = some v ∧ lookup "n" defaultsMerged = some s ∧
        JVal.num 10 = JVal.num (median3 v s.min s.max)) ∧
    reconcileKey defaultsMerged "n" (JVal.str "10") = Except.ok (JVal.num 10) ∧
    reconcileKey defaultsMerged "n" (JVal.str "abc")
      = Except.error "ValueError: could not convert value to float" :=
  reconciled_values_from_float "n" (JVal.str "10") (JVal.num 10) (by decide)

end CovaApp
